import Mathlib

/-!
Verification of the Advanced E-commerce Product Scraper.

This file gives a shallow embedding of the repository's Python modules
(`config.py`, `utils.py`, `parser.py`, `scraper.py`, `main.py`) and proves
properties of the embedded functions.

Modelling conventions:
* Python `float` values arising from price parsing are modelled by `PyFloat`:
  finite values kept exact as rationals (`ℚ`), NaN, and signed infinities.
  The model of `float(...)` covers optional sign, underscore-grouped digits
  with at most one decimal point, an optional exponent, and the special
  texts `nan`/`inf`/`infinity` (case-insensitive); ratings, matched as bare
  digit runs by the rating regex, stay plain rationals.
* Python `None` is `Option.none`.
* Python string primitives (`strip`, `lower`, substring membership) are
  implemented over `List Char` with ASCII case folding, matching their
  behaviour on the ASCII inputs this scraper manipulates.
* Regular-expression searches from `parser.py` are implemented directly as
  character-list scans with the exact leftmost-match/greedy semantics of the
  patterns in the source (ASCII digits, matching `\d` on the inputs of
  interest).
* The Selenium-driven crawl loop in `scraper.py` is embedded as a state
  machine: the outcome of each `driver.get`/wait for a page is supplied by an
  environment oracle, and one loop iteration is a pure step function.
-/

namespace EcommerceScraper

/-! ### Python string primitives -/

/-- ASCII case folding of one character (models `str.lower` per character on
the ASCII inputs of this program). -/
def lowerChar (c : Char) : Char :=
  if 65 ≤ c.toNat ∧ c.toNat ≤ 90 then Char.ofNat (c.toNat + 32) else c

/-- Models Python `str.lower()`. -/
def pyLower (s : String) : String := String.mk (s.toList.map lowerChar)

/-- Models Python `str.strip()`: drop leading and trailing whitespace. -/
def pyStrip (l : List Char) : List Char :=
  ((l.dropWhile Char.isWhitespace).reverse.dropWhile Char.isWhitespace).reverse

/-- Returns true when the first list is a prefix of the second (helper for
substring membership). -/
def startsWithSeq : List Char → List Char → Bool
  | [], _ => true
  | _ :: _, [] => false
  | n :: ns, h :: hs => n == h && startsWithSeq ns hs

/-- Models Python `needle in hay` on strings: the needle occurs as a
contiguous subsequence of the hay. -/
def containsSeq (needle : List Char) : List Char → Bool
  | [] => needle.isEmpty
  | c :: rest => startsWithSeq needle (c :: rest) || containsSeq needle rest

/-! ### config.py -/

/-- Embeds `config.BASE_URL`. -/
def BASE_URL : String := "https://www.example-ecommerce.com"

/-- Returns true when the reference carries a scheme (contains "://"), the
case in which `urllib.parse.urljoin` ignores the base. -/
def hasScheme (rel : String) : Bool := containsSeq "://".toList rel.toList

/-- Model of `urllib.parse.urljoin` for the reference forms used by this
repository: an empty reference yields the base, an absolute reference
(carrying a scheme) replaces the base, and any other reference is joined onto
the base. -/
def urljoin (base rel : String) : String :=
  if rel = "" then base
  else if hasScheme rel then rel
  else base ++ rel

/-! ### Data model: one product record as built by `parse_product_listings`.
The `scraped_timestamp` field (wall-clock time) is outside the model. -/

/-- A Python float value as produced by `float(...)`: a finite value (kept
exact as a rational), a NaN, or a signed infinity.  Rounding a finite value
to the nearest IEEE double, and the overflow of huge finite literals to
infinity, are not modelled; both preserve the sign, which is all the proved
properties depend on. -/
inductive PyFloat where
  | num (q : ℚ)
  | nan
  | inf (neg : Bool)
deriving DecidableEq, Repr

/-- Models the Python comparison `0 <= v` on a float value: false for NaN. -/
def PyFloat.zeroLe : PyFloat → Prop
  | .num q => 0 ≤ q
  | .nan => False
  | .inf neg => neg = false

instance (v : PyFloat) : Decidable v.zeroLe :=
  match v with
  | .num q => inferInstanceAs (Decidable (0 ≤ q))
  | .nan => inferInstanceAs (Decidable False)
  | .inf neg => inferInstanceAs (Decidable (neg = false))

/-- Models the Python comparison `v < 0` on a float value: false for NaN. -/
def PyFloat.negative : PyFloat → Prop
  | .num q => q < 0
  | .nan => False
  | .inf neg => neg = true

instance (v : PyFloat) : Decidable v.negative :=
  match v with
  | .num q => inferInstanceAs (Decidable (q < 0))
  | .nan => inferInstanceAs (Decidable False)
  | .inf neg => inferInstanceAs (Decidable (neg = true))

structure Product where
  name : String
  price : Option PyFloat
  rating : Option ℚ
  reviews : Option ℕ
  url : String
deriving DecidableEq, Repr

/-! ### utils.py : numeric parsing and price cleaning -/

/-- Value of a list of ASCII digit characters, most significant first
(models `int(...)` on a digit string). -/
def digitsToNat (l : List Char) : ℕ :=
  l.foldl (fun n c => 10 * n + (c.toNat - 48)) 0

/-- Remainder of one underscore-grouped digit run after its first digit:
consumes further digits, with single underscores allowed only between digits
(the Python numeric-literal rule), and returns the collected digits
(underscores dropped) with the unconsumed rest. -/
def digitPartRest : List Char → List Char × List Char
  | '_' :: d :: rest =>
    if d.isDigit then
      let (ds, rem) := digitPartRest rest
      (d :: ds, rem)
    else ([], '_' :: d :: rest)
  | d :: rest =>
    if d.isDigit then
      let (ds, rem) := digitPartRest rest
      (d :: ds, rem)
    else ([], d :: rest)
  | [] => ([], [])

/-- One underscore-grouped digit run (Python `digitpart`): at least one
digit; returns the digits (underscores dropped) and the unconsumed rest. -/
def digitPart : List Char → Option (List Char × List Char)
  | d :: rest =>
    if d.isDigit then
      let (ds, rem) := digitPartRest rest
      some (d :: ds, rem)
    else none
  | [] => none

/-- Digits of one unsigned decimal literal: integer-part digits,
fraction-part digits, and the (signed) exponent digits. -/
structure DecimalParts where
  intDigits : List Char
  fracDigits : List Char
  expNeg : Bool
  expDigits : List Char
deriving DecidableEq, Repr

/-- Exponent of a decimal literal, after the `e`/`E`: an optional sign and a
digit run consuming the whole rest of the string. -/
def expScan : List Char → Option (Bool × List Char)
  | '+' :: rest =>
    (digitPart rest).bind (fun pr => if pr.2.isEmpty then some (false, pr.1) else none)
  | '-' :: rest =>
    (digitPart rest).bind (fun pr => if pr.2.isEmpty then some (true, pr.1) else none)
  | rest =>
    (digitPart rest).bind (fun pr => if pr.2.isEmpty then some (false, pr.1) else none)

/-- Tail of a decimal literal after its mantissa digits: end of string, or an
`e`/`E` exponent; requires at least one mantissa digit. -/
def tailScan (ip fp : List Char) : List Char → Option DecimalParts
  | [] => if ip.isEmpty && fp.isEmpty then none else some ⟨ip, fp, false, []⟩
  | e :: rest =>
    if ip.isEmpty && fp.isEmpty then none
    else if e = 'e' ∨ e = 'E' then
      (expScan rest).map (fun pr => ⟨ip, fp, pr.1, pr.2⟩)
    else none

/-- Scan of an unsigned Python decimal literal: underscore-grouped digits
with at most one decimal point and at least one digit, then an optional
`e`/`E` exponent; `none` models a raised `ValueError`. -/
def decimalScan (l : List Char) : Option DecimalParts :=
  match digitPart l with
  | some (ip, rest) =>
    match rest with
    | '.' :: rest2 =>
      match digitPart rest2 with
      | some (fp, rest3) => tailScan ip fp rest3
      | none => tailScan ip [] rest2
    | _ => tailScan ip [] rest
  | none =>
    match l with
    | '.' :: rest2 =>
      match digitPart rest2 with
      | some (fp, rest3) => tailScan [] fp rest3
      | none => none
    | _ => none

/-- Rational value of a scanned decimal literal. -/
def decimalVal (d : DecimalParts) : ℚ :=
  let m : ℚ :=
    (digitsToNat d.intDigits : ℚ) + (digitsToNat d.fracDigits : ℚ) / 10 ^ d.fracDigits.length
  if d.expNeg then m / 10 ^ digitsToNat d.expDigits
  else m * 10 ^ digitsToNat d.expDigits

/-- An unsigned Python float literal: a decimal literal, `nan`, or
`inf`/`infinity` (each case-insensitive). -/
inductive UnsignedFloat where
  | num (d : DecimalParts)
  | nan
  | inf
deriving DecidableEq, Repr

/-- Scan of the body of a Python float literal after the optional sign:
`inf`/`infinity` and `nan` case-insensitively, else a decimal literal. -/
def unsignedScanBody (body : List Char) : Option UnsignedFloat :=
  let low := body.map lowerChar
  if low = ['i', 'n', 'f'] ∨ low = ['i', 'n', 'f', 'i', 'n', 'i', 't', 'y'] then some .inf
  else if low = ['n', 'a', 'n'] then some .nan
  else (decimalScan body).map .num

/-- Outcome of scanning a string as a signed float literal. -/
inductive FloatScan where
  | err
  | pos (u : UnsignedFloat)
  | neg (u : UnsignedFloat)
deriving DecidableEq, Repr

/-- Positive scan outcome of an unsigned body. -/
def posScan (body : List Char) : FloatScan :=
  match unsignedScanBody body with
  | some u => .pos u
  | none => .err

/-- Negative scan outcome of an unsigned body. -/
def negScan (body : List Char) : FloatScan :=
  match unsignedScanBody body with
  | some u => .neg u
  | none => .err

/-- Sign-and-body scan of Python `float` over the characters of the string:
an optional leading sign followed by an unsigned float literal. -/
def pyFloatScanL : List Char → FloatScan
  | [] => .err
  | c :: body =>
    if c = '+' then posScan body
    else if c = '-' then negScan body
    else posScan (c :: body)

/-- Sign-and-body scan of Python `float(s)` on whitespace-free strings (the
strings reaching `float` in `clean_price` have had all whitespace removed). -/
def pyFloatScan (s : String) : FloatScan := pyFloatScanL s.toList

/-- Value of an unsigned float literal. -/
def unsignedVal : UnsignedFloat → PyFloat
  | .num d => .num (decimalVal d)
  | .nan => .nan
  | .inf => .inf false

/-- Negation of a Python float value (`float("-nan")` is still NaN). -/
def negPyFloat : PyFloat → PyFloat
  | .num q => .num (-q)
  | .nan => .nan
  | .inf neg => .inf (!neg)

/-- Model of Python `float(s)` on whitespace-free strings; `none` models a
raised `ValueError`. -/
def pyFloat? (s : String) : Option PyFloat :=
  match pyFloatScan s with
  | .err => none
  | .pos u => some (unsignedVal u)
  | .neg u => some (negPyFloat (unsignedVal u))

/-- Characters removed by `re.sub(r"[$,£€]|\s|,|", "", ...)` in
`utils.clean_price` (the empty alternative in the pattern removes nothing). -/
def strippedChar (c : Char) : Bool :=
  c == '$' || c == ',' || c == '£' || c == '€' || c.isWhitespace

/-- The cleaned text of `utils.clean_price`: `str(price_str).strip()` followed
by removal of currency symbols, commas and whitespace. -/
def cleanedText (s : String) : String :=
  String.mk ((pyStrip s.toList).filter (fun c => !strippedChar c))

/-- Embeds the range handling of `utils.clean_price`: if the cleaned text
contains a `-`, keep `split('-')[0]`, the part before the first `-`. -/
def rangeLower (s : String) : String :=
  if '-' ∈ s.toList then String.mk (s.toList.takeWhile (fun c => c ≠ '-'))
  else s

/-- Embeds `utils.clean_price` on a present string: clean the text, take the
lower bound of a range, map "free" (case-insensitively) to 0, otherwise parse
as a float; `none` models the caught `ValueError` path. -/
def clean_price (s : String) : Option PyFloat :=
  let cleaned := rangeLower (cleanedText s)
  if pyLower cleaned = "free" then some (.num 0)
  else pyFloat? cleaned

/-! ### parser.py : field extraction from container text -/

/-- Leftmost match of the rating pattern `\d+(\.\d+)?` over a character list,
returned as integer and fraction digits: scan to the first digit, take the
maximal digit run, then greedily a point followed by at least one digit. -/
def ratingNumeral : List Char → Option DecimalParts
  | [] => none
  | c :: rest =>
    if c.isDigit then
      let ip := (c :: rest).takeWhile Char.isDigit
      match (c :: rest).drop ip.length with
      | '.' :: fr =>
        let fp := fr.takeWhile Char.isDigit
        if fp.isEmpty then some ⟨ip, [], false, []⟩ else some ⟨ip, fp, false, []⟩
      | _ => some ⟨ip, [], false, []⟩
    else ratingNumeral rest

/-- Embeds the rating extraction of `parse_product_listings`:
`re.search(r"(\d+(\.\d+)?)", rating_str)` followed by `float(...)`. -/
def extractRating (s : String) : Option ℚ :=
  (ratingNumeral s.toList).map decimalVal

/-- Greedy repetition `(?:,\d{3})*` of the reviews pattern: consume a comma
followed by exactly three digits, as long as that shape repeats. -/
def reviewsCommaGroups : List Char → List Char
  | ',' :: d1 :: d2 :: d3 :: rest =>
    if d1.isDigit && d2.isDigit && d3.isDigit then
      ',' :: d1 :: d2 :: d3 :: reviewsCommaGroups rest
    else []
  | _ => []

/-- Leftmost match of the reviews pattern `(\d{1,3}(?:,\d{3})*|\d+)`: the
first alternative succeeds at every position that starts with a digit (taking
at most three leading digits), so the second alternative is unreachable. -/
def reviewsNumeral : List Char → Option (List Char)
  | [] => none
  | c :: rest =>
    if c.isDigit then
      let lead := ((c :: rest).takeWhile Char.isDigit).take 3
      some (lead ++ reviewsCommaGroups ((c :: rest).drop lead.length))
    else reviewsNumeral rest

/-- Embeds the review-count extraction of `parse_product_listings`:
`re.search(r"(\d{1,3}(?:,\d{3})*|\d+)", reviews_str)` followed by
`int(match.replace(",", ""))`. -/
def extractReviews (s : String) : Option ℕ :=
  (reviewsNumeral s.toList).map (fun m => digitsToNat (m.filter (fun c => c != ',')))

/-! ### parser.py : page structure and per-container extraction

A `Container` abstracts one element of `soup.select(PRODUCT_CONTAINER_SELECTOR)`:
each field holds the stripped text (or href) delivered by the corresponding
`select_one` call, `none` when the selector matched nothing.  The `raises`
flag marks a container whose processing raises an unexpected exception
(caught by the `except Exception` handler in the loop body of
`parse_product_listings`). -/

structure Container where
  nameText : Option String
  priceText : Option String
  ratingText : Option String
  reviewsText : Option String
  href : Option String
  raises : Bool
deriving DecidableEq, Repr

/-- A parsed listing page: the product containers found by the container
selector, the href of the next-page link element (when that element exists
and carries an href), and the raw page text. -/
structure Page where
  containers : List Container
  nextHref : Option String
  raw : String
deriving DecidableEq, Repr

/-- Embeds the body of the `for container in product_containers` loop of
`parse_product_listings`: build one record, or skip the container when its
processing raises or when name or absolute URL is not truthy
(`if name and absolute_url`). -/
def parseContainer (c : Container) : Option Product :=
  if c.raises then none
  else
    let price := c.priceText.bind clean_price
    let rating := c.ratingText.bind extractRating
    let reviews := c.reviewsText.bind extractReviews
    let absoluteUrl :=
      match c.href with
      | some h => if h = "" then none else some (urljoin BASE_URL h)
      | none => none
    match c.nameText, absoluteUrl with
    | some n, some u =>
      if n ≠ "" ∧ u ≠ "" then some ⟨n, price, rating, reviews, u⟩ else none
    | some _, none => none
    | none, _ => none

/-- Embeds `parser.parse_product_listings`: extract a record from every
container, skipping the ones whose processing fails or whose mandatory
fields are missing (an empty container list yields the empty result). -/
def parse_product_listings (p : Page) : List Product :=
  p.containers.filterMap parseContainer

/-- Embeds `parser.find_next_page_url`: resolve the next-page link element's
href against the base URL, `none` when no such element (or no href) exists. -/
def find_next_page_url (p : Page) : Option String :=
  match p.nextHref with
  | some h => some (urljoin BASE_URL h)
  | none => none

/-! ### scraper.py : the crawl control loop -/

/-- Embeds the check `"no results" in self.driver.page_source.lower()` made
after an element-wait timeout. -/
def noResultsMarker (p : Page) : Bool :=
  containsSeq "no results".toList (pyLower p.raw).toList

/-- Mutable state of `ProductScraper.scrape_products`: the URL to fetch next
(`current_url`), the number of pages visited (`page_count`), and the
accumulated records (`all_products_data`). -/
structure CrawlState where
  currentUrl : Option String
  pageCount : ℕ
  acc : List Product
deriving DecidableEq, Repr

/-- Why the crawl loop ended: the `while` guard failed (no URL, or the page
budget was reached), or a `break` fired (no-results marker after a wait
timeout, no next-page link, or a WebDriver error). -/
inductive ExitCause where
  | urlExhausted
  | budgetExhausted
  | noResults
  | noNextLink
  | driverError
deriving DecidableEq, Repr

/-- Outcome of `driver.get` plus the element wait for one iteration, as seen
by the loop body:
* `ok waitTimedOut src` — navigation succeeded and `page_source` is `src`;
  `waitTimedOut` records whether the element wait raised `TimeoutException`;
* `loadTimeout src` — `driver.get` raised `TimeoutException`; `src` is the
  partial source available for next-link recovery, `none` when reading or
  parsing it raises (the inner `except Exception` of that handler);
* `driverError` — `WebDriverException` (fatal transport failure);
* `unexpectedErr src` — any other exception escaped the page handling;
  `src` as for `loadTimeout`. -/
inductive GetOutcome where
  | ok (waitTimedOut : Bool) (src : Page)
  | loadTimeout (src : Option Page)
  | driverError
  | unexpectedErr (src : Option Page)
deriving DecidableEq, Repr

/-- Result of one loop iteration: continue to the guard check, or `break`
with the recorded cause. -/
inductive StepResult where
  | cont (s : CrawlState)
  | broke (c : ExitCause) (s : CrawlState)
deriving DecidableEq, Repr

/-- The state carried out of an iteration. -/
def StepResult.state : StepResult → CrawlState
  | .cont s => s
  | .broke _ s => s

/-- One iteration of the `while` loop body of `scrape_products`, after
`page_count` has been incremented, given the fetch outcome for the page:
* wait timeout with the no-results marker: `break`;
* empty `page_source`: recover a next URL and `continue` (no extraction);
* normal page: extend the accumulator with the extracted records, then move
  to the resolved next URL or `break` when there is none;
* page-load timeout or unexpected error: recover a next URL from whatever
  source is available (`none` when that recovery itself raises) and
  `continue`;
* WebDriver error: `break`. -/
def pageStep (ev : GetOutcome) (s : CrawlState) : StepResult :=
  match ev with
  | .ok waitTimedOut src =>
    if waitTimedOut && noResultsMarker src then
      .broke .noResults s
    else if src.raw = "" then
      .cont { s with currentUrl := find_next_page_url src }
    else
      let s1 := { s with acc := s.acc ++ parse_product_listings src }
      match find_next_page_url src with
      | some u => .cont { s1 with currentUrl := some u }
      | none => .broke .noNextLink { s1 with currentUrl := none }
  | .loadTimeout src => .cont { s with currentUrl := src.bind find_next_page_url }
  | .driverError => .broke .driverError s
  | .unexpectedErr src => .cont { s with currentUrl := src.bind find_next_page_url }

/-- The crawl loop of `scrape_products`.  The guard
`while current_url and page_count < MAX_PAGES` is driven by `remaining`, the
number of pages the budget still allows (`MAX_PAGES - page_count`): the URL
check comes first, exactly as Python evaluates the conjunction, and each
iteration consumes one unit of budget.  The environment `env` yields the
fetch outcome of the n-th visited page. -/
def crawlLoop (env : ℕ → GetOutcome) : ℕ → CrawlState → CrawlState × ExitCause
  | remaining, s =>
    match s.currentUrl with
    | none => (s, .urlExhausted)
    | some _ =>
      match remaining with
      | 0 => (s, .budgetExhausted)
      | r + 1 =>
        let s1 : CrawlState := { s with pageCount := s.pageCount + 1 }
        match pageStep (env s1.pageCount) s1 with
        | .broke c s2 => (s2, c)
        | .cont s2 => crawlLoop env r s2

/-- Embeds `ProductScraper.scrape_products`: run the crawl loop from the
start URL with an empty accumulator and the configured page budget. -/
def scrape_products (env : ℕ → GetOutcome) (budget : ℕ) (startUrl : String) :
    CrawlState × ExitCause :=
  crawlLoop env budget ⟨some startUrl, 0, []⟩

/-- Embeds the post-loop report
`if page_count >= config.MAX_PAGES: logging.info("Reached maximum page limit ...")`:
the budget-exhausted terminal reason is recorded exactly when this condition
holds on the final state. -/
def budgetMessageRecorded (budget : ℕ) (s : CrawlState) : Prop :=
  budget ≤ s.pageCount

instance (budget : ℕ) (s : CrawlState) : Decidable (budgetMessageRecorded budget s) :=
  inferInstanceAs (Decidable (budget ≤ s.pageCount))

/-- The page source available to a recovery attempt for each fetch outcome. -/
def availableSource : GetOutcome → Option Page
  | .ok _ src => some src
  | .loadTimeout src => src
  | .driverError => none
  | .unexpectedErr src => src

/-! ### utils.py sinks and main.py -/

/-- Filesystem oracle for one save call: whether `os.makedirs` raises and
whether building or writing the output file (the body of the `try` block)
raises. -/
structure FsEnv where
  mkdirFails : Bool
  writeFails : Bool
deriving DecidableEq, Repr

/-- Observable outcome of one save call: whether an exception propagated to
the caller, whether the filesystem was touched, and whether the output file
was written. -/
structure SaveResult where
  raised : Bool
  touchedFs : Bool
  fileWritten : Bool
deriving DecidableEq, Repr

/-- Embeds `utils.save_to_csv`: return at once on empty data; otherwise
create the output directory (outside any handler), then write the file
inside `try/except Exception`, which swallows `DataFrame`/`to_csv` errors. -/
def save_to_csv (fs : FsEnv) (data : List Product) : SaveResult :=
  if data.isEmpty then ⟨false, false, false⟩
  else if fs.mkdirFails then ⟨true, true, false⟩
  else ⟨false, true, !fs.writeFails⟩

/-- Embeds `utils.save_to_json`: return at once on empty data; otherwise
create the output directory (outside any handler), then write the file
inside `try/except Exception`, which swallows `open`/`json.dump` errors. -/
def save_to_json (fs : FsEnv) (data : List Product) : SaveResult :=
  if data.isEmpty then ⟨false, false, false⟩
  else if fs.mkdirFails then ⟨true, true, false⟩
  else ⟨false, true, !fs.writeFails⟩

/-- Observable outcome of `main.main`: the scraped data, whether each sink
was invoked (`if scraped_data:` guards both save calls), and whether the
WebDriver session was released (the `finally` block always runs
`close_driver` once the scraper instance exists). -/
structure MainResult where
  data : List Product
  csvSaved : Bool
  jsonSaved : Bool
  driverClosed : Bool
deriving DecidableEq, Repr

/-- Embeds `main.main` around a successful WebDriver setup: run
`scrape_products`, invoke the sinks only when records were collected, and
release the session on every path. -/
def mainRun (env : ℕ → GetOutcome) (budget : ℕ) (startUrl : String) : MainResult :=
  let r := scrape_products env budget startUrl
  { data := r.1.acc
    csvSaved := !r.1.acc.isEmpty
    jsonSaved := !r.1.acc.isEmpty
    driverClosed := true }

/-! ### Validation predicate and verification fixtures -/

/-- Python truthiness of an optional string (`None` and `""` are falsy). -/
def truthy : Option String → Bool
  | some s => !(s == "")
  | none => false

/-- A well-formed container: its processing does not raise, and both the name
text and the product href are present and truthy, so `parse_product_listings`
builds a record from it. -/
def wellFormed (c : Container) : Bool :=
  !c.raises && truthy c.nameText && truthy c.href

/-- A listing page whose next-page link points to `/p2` (no containers). -/
def pageWithNext : Page := { containers := [], nextHref := some "/p2", raw := "x" }

/-- A listing page without a next-page link (no containers). -/
def pageNoNext : Page := { containers := [], nextHref := none, raw := "x" }

/-- Environment in which page 1 links to a second page and page 2 has no
next-page link. -/
def envTwoPages : ℕ → GetOutcome :=
  fun n => if n = 1 then .ok false pageWithNext else .ok false pageNoNext

/-- Environment in which every page carries a next-page link. -/
def envAllNext : ℕ → GetOutcome := fun _ => .ok false pageWithNext

/-- Environment in which every fetch raises a fatal WebDriver error. -/
def envDriverErr : ℕ → GetOutcome := fun _ => .driverError

/-- A listing page whose raw text carries the no-results marker. -/
def pageNoResults : Page :=
  { containers := [], nextHref := some "/p2", raw := "Sorry, No Results found" }

/-- A well-formed container (name and href present). -/
def goodContainer : Container :=
  { nameText := some "Widget", priceText := none, ratingText := none,
    reviewsText := none, href := some "/w", raises := false }

/-- A container with no name element, hence skipped. -/
def badContainer : Container :=
  { nameText := none, priceText := none, ratingText := none,
    reviewsText := none, href := some "/w", raises := false }

/-- A sample product record. -/
def sampleProduct : Product :=
  { name := "w", price := none, rating := none, reviews := none, url := "u" }

/-! ### Helper lemmas -/

theorem urljoin_base_ne_empty (rel : String) : urljoin BASE_URL rel ≠ "" := by
  unfold urljoin
  split_ifs with h1 h2
  · decide
  · exact h1
  · intro hc
    have hlen := congrArg String.length hc
    rw [String.length_append] at hlen
    have hb : BASE_URL.length = 33 := by decide
    have h0 : ("" : String).length = 0 := rfl
    omega

theorem parseContainer_of_wellFormed (c : Container) (h : wellFormed c = true) :
    ∃ p : Product, parseContainer c = some p ∧ p.name ≠ "" ∧ p.url ≠ "" := by
  obtain ⟨nt, pt, rt, vt, hf, rs⟩ := c
  simp only [wellFormed, truthy] at h
  cases rs with
  | true => simp at h
  | false =>
    cases nt with
    | none => simp at h
    | some n =>
      cases hf with
      | none => simp at h
      | some h' =>
        simp only [Bool.not_false, Bool.true_and, Bool.and_eq_true,
          Bool.not_eq_true', beq_eq_false_iff_ne, ne_eq] at h
        obtain ⟨hn, hh⟩ := h
        refine ⟨⟨n, pt.bind clean_price, rt.bind extractRating,
          vt.bind extractReviews, urljoin BASE_URL h'⟩, ?_, hn, urljoin_base_ne_empty h'⟩
        simp [parseContainer, hh, hn, urljoin_base_ne_empty h']

theorem parseContainer_of_not_wellFormed (c : Container) (h : wellFormed c = false) :
    parseContainer c = none := by
  obtain ⟨nt, pt, rt, vt, hf, rs⟩ := c
  simp only [wellFormed, truthy] at h
  cases rs with
  | true => simp [parseContainer]
  | false =>
    cases nt with
    | none => simp [parseContainer]
    | some n =>
      cases hf with
      | none => simp [parseContainer]
      | some h' =>
        simp only [Bool.not_false, Bool.true_and, Bool.and_eq_false_iff,
          Bool.not_eq_false', beq_iff_eq] at h
        rcases h with h | h
        · subst h
          by_cases hh : h' = "" <;> simp [parseContainer, hh]
        · subst h
          simp [parseContainer]

theorem parseContainer_price (c : Container) (p : Product)
    (h : parseContainer c = some p) : p.price = c.priceText.bind clean_price := by
  obtain ⟨nt, pt, rt, vt, hf, rs⟩ := c
  cases rs with
  | true => simp [parseContainer] at h
  | false =>
    cases nt with
    | none => simp [parseContainer] at h
    | some n =>
      cases hf with
      | none => simp [parseContainer] at h
      | some h' =>
        by_cases hh : h' = ""
        · simp [parseContainer, hh] at h
        · simp only [parseContainer, hh, if_false, Bool.false_eq_true, ite_false] at h
          split at h
          · cases h
            rfl
          · cases h

theorem decimalVal_nonneg (d : DecimalParts) : 0 ≤ decimalVal d := by
  unfold decimalVal
  dsimp only
  split_ifs <;> positivity

theorem unsignedVal_not_negative (u : UnsignedFloat) :
    ¬ (unsignedVal u).negative := by
  cases u with
  | num d =>
    simp only [unsignedVal, PyFloat.negative]
    exact not_lt.mpr (decimalVal_nonneg d)
  | nan => simp [unsignedVal, PyFloat.negative]
  | inf => simp [unsignedVal, PyFloat.negative]

theorem posScan_ne_neg (body : List Char) (u : UnsignedFloat) :
    posScan body ≠ .neg u := by
  unfold posScan
  split <;> simp

theorem pyFloat?_not_negative (s : String) (h : ('-') ∉ s.toList) (v : PyFloat)
    (hv : pyFloat? s = some v) : ¬ v.negative := by
  unfold pyFloat? at hv
  cases hscan : pyFloatScan s with
  | err =>
    rw [hscan] at hv
    cases hv
  | pos u =>
    rw [hscan] at hv
    cases hv
    exact unsignedVal_not_negative u
  | neg u =>
    exfalso
    apply h
    unfold pyFloatScan pyFloatScanL at hscan
    split at hscan
    · exact absurd hscan (by simp)
    · rename_i c b heq
      rw [heq]
      split_ifs at hscan with hplus hminus
      · exact absurd hscan (posScan_ne_neg b u)
      · rw [hminus]
        exact List.mem_cons_self _ _
      · exact absurd hscan (posScan_ne_neg (c :: b) u)

theorem rangeLower_no_dash (s : String) : ('-') ∉ (rangeLower s).toList := by
  unfold rangeLower
  split_ifs with h1
  · intro hmem
    have hp := List.mem_takeWhile_imp hmem
    simp at hp
  · exact h1

theorem clean_price_not_negative (s : String) (v : PyFloat)
    (h : clean_price s = some v) : ¬ v.negative := by
  have h' : (if pyLower (rangeLower (cleanedText s)) = "free" then some (PyFloat.num 0)
      else pyFloat? (rangeLower (cleanedText s))) = some v := h
  split_ifs at h' with hfree
  · cases h'
    simp [PyFloat.negative]
  · exact pyFloat?_not_negative _ (rangeLower_no_dash (cleanedText s)) v h'

theorem reviewsNumeral_skip (pre rest : List Char)
    (h : ∀ c ∈ pre, c.isDigit = false) :
    reviewsNumeral (pre ++ rest) = reviewsNumeral rest := by
  induction pre with
  | nil => rfl
  | cons c pre ih =>
    have hc : c.isDigit = false := h c (by simp)
    simp only [List.cons_append, reviewsNumeral, hc, Bool.false_eq_true, if_false]
    exact ih (fun c hc => h c (by simp [hc]))

theorem reviewsCommaGroups_of_head_digit (c : Char) (l : List Char)
    (h : c.isDigit = true) : reviewsCommaGroups (c :: l) = [] := by
  unfold reviewsCommaGroups
  split
  · rename_i d1 d2 d3 rest heq
    exfalso
    obtain ⟨h1, -⟩ := List.cons_eq_cons.mp heq
    subst h1
    simp [Char.isDigit] at h
  · rfl

theorem reviewsNumeral_long_run (run post : List Char)
    (hrun : ∀ c ∈ run, c.isDigit = true) (hlen : 4 ≤ run.length) :
    reviewsNumeral (run ++ post) = some (run.take 3) := by
  match run, hlen with
  | d1 :: d2 :: d3 :: d4 :: r, _ =>
    have h1 : d1.isDigit = true := hrun d1 (by simp)
    have h2 : d2.isDigit = true := hrun d2 (by simp)
    have h3 : d3.isDigit = true := hrun d3 (by simp)
    have h4 : d4.isDigit = true := hrun d4 (by simp)
    show reviewsNumeral (d1 :: d2 :: d3 :: d4 :: (r ++ post)) =
      some ((d1 :: d2 :: d3 :: d4 :: r).take 3)
    rw [reviewsNumeral]
    rw [List.takeWhile_cons_of_pos h1, List.takeWhile_cons_of_pos h2,
      List.takeWhile_cons_of_pos h3, List.takeWhile_cons_of_pos h4]
    simp [h1, reviewsCommaGroups_of_head_digit d4 (r ++ post) h4]

theorem digit_ne_comma (a : Char) (h : a.isDigit = true) : (a != ',') = true := by
  rcases eq_or_ne a ',' with rfl | hne
  · simp [Char.isDigit] at h
  · simp [hne]

theorem filterMap_length_of_wellFormed (cs : List Container)
    (h : ∀ c ∈ cs, wellFormed c = true) :
    (cs.filterMap parseContainer).length = cs.length := by
  induction cs with
  | nil => rfl
  | cons c cs ih =>
    obtain ⟨p, hp, -, -⟩ := parseContainer_of_wellFormed c (h c (by simp))
    rw [List.filterMap_cons_some hp]
    simp only [List.length_cons]
    rw [ih (fun c hc => h c (by simp [hc]))]

theorem pageStep_pageCount (ev : GetOutcome) (s : CrawlState) :
    ((pageStep ev s).state).pageCount = s.pageCount := by
  cases ev with
  | ok w src =>
    simp only [pageStep]
    split
    · rfl
    · split
      · rfl
      · split <;> rfl
  | loadTimeout src => rfl
  | driverError => rfl
  | unexpectedErr src => rfl

theorem pageStep_broke_cause (ev : GetOutcome) (s : CrawlState) (c : ExitCause)
    (s2 : CrawlState) (h : pageStep ev s = .broke c s2) : c ≠ .budgetExhausted := by
  cases ev with
  | ok w src =>
    simp only [pageStep] at h
    split at h
    · cases h
      decide
    · split at h
      · cases h
      · split at h
        · cases h
        · cases h
          decide
  | loadTimeout src =>
    simp only [pageStep] at h
    cases h
  | driverError =>
    simp only [pageStep] at h
    cases h
    decide
  | unexpectedErr src =>
    simp only [pageStep] at h
    cases h

theorem crawlLoop_pageCount_le (env : ℕ → GetOutcome) :
    ∀ (r : ℕ) (s : CrawlState), (crawlLoop env r s).1.pageCount ≤ s.pageCount + r := by
  intro r
  induction r with
  | zero =>
    intro s
    rw [crawlLoop]
    cases s.currentUrl <;> simp
  | succ n ih =>
    intro s
    rw [crawlLoop]
    cases hu : s.currentUrl with
    | none => simp
    | some u =>
      dsimp only
      cases hstep : pageStep (env (s.pageCount + 1))
          { currentUrl := some u, pageCount := s.pageCount + 1, acc := s.acc } with
      | broke c s2 =>
        have hpc := pageStep_pageCount (env (s.pageCount + 1))
          { currentUrl := some u, pageCount := s.pageCount + 1, acc := s.acc }
        rw [hstep] at hpc
        simp [StepResult.state] at hpc
        dsimp only
        omega
      | cont s2 =>
        have hpc := pageStep_pageCount (env (s.pageCount + 1))
          { currentUrl := some u, pageCount := s.pageCount + 1, acc := s.acc }
        rw [hstep] at hpc
        simp [StepResult.state] at hpc
        have hle := ih s2
        dsimp only
        omega

theorem crawlLoop_budget_pageCount (env : ℕ → GetOutcome) :
    ∀ (r : ℕ) (s : CrawlState), (crawlLoop env r s).2 = .budgetExhausted →
      s.pageCount + r ≤ (crawlLoop env r s).1.pageCount := by
  intro r
  induction r with
  | zero =>
    intro s h
    rw [crawlLoop] at h ⊢
    cases hu : s.currentUrl with
    | none =>
      rw [hu] at h
      simp at h
    | some u =>
      dsimp only
      omega
  | succ n ih =>
    intro s h
    rw [crawlLoop] at h ⊢
    cases hu : s.currentUrl with
    | none =>
      rw [hu] at h
      simp at h
    | some u =>
      rw [hu] at h
      dsimp only at h ⊢
      cases hstep : pageStep (env (s.pageCount + 1))
          { currentUrl := some u, pageCount := s.pageCount + 1, acc := s.acc } with
      | broke c s2 =>
        rw [hstep] at h
        dsimp only at h
        exact absurd h (pageStep_broke_cause _ _ c s2 hstep)
      | cont s2 =>
        rw [hstep] at h
        dsimp only at h
        have hpc := pageStep_pageCount (env (s.pageCount + 1))
          { currentUrl := some u, pageCount := s.pageCount + 1, acc := s.acc }
        rw [hstep] at hpc
        simp [StepResult.state] at hpc
        have hrec := ih s2 h
        dsimp only
        omega

theorem crawlLoop_one_page (env : ℕ → GetOutcome) (s : CrawlState) (u : String)
    (hu : s.currentUrl = some u) :
    (crawlLoop env 1 s).1.pageCount = s.pageCount + 1 := by
  rw [crawlLoop, hu]
  dsimp only
  cases hstep : pageStep (env (s.pageCount + 1))
      { currentUrl := some u, pageCount := s.pageCount + 1, acc := s.acc } with
  | broke c s2 =>
    have hpc := pageStep_pageCount (env (s.pageCount + 1))
      { currentUrl := some u, pageCount := s.pageCount + 1, acc := s.acc }
    rw [hstep] at hpc
    simpa [StepResult.state] using hpc
  | cont s2 =>
    have hpc := pageStep_pageCount (env (s.pageCount + 1))
      { currentUrl := some u, pageCount := s.pageCount + 1, acc := s.acc }
    rw [hstep] at hpc
    simp [StepResult.state] at hpc
    dsimp only
    rw [crawlLoop]
    cases hu2 : s2.currentUrl with
    | none =>
      dsimp only
      exact hpc
    | some v =>
      dsimp only
      exact hpc

theorem crawlLoop_driverError (env : ℕ → GetOutcome) (r : ℕ) (s : CrawlState)
    (u : String) (hu : s.currentUrl = some u)
    (henv : env (s.pageCount + 1) = .driverError) :
    crawlLoop env (r + 1) s = ({ s with pageCount := s.pageCount + 1 }, .driverError) := by
  obtain ⟨url, pc, acc⟩ := s
  dsimp only at hu henv ⊢
  subst hu
  rw [crawlLoop]
  dsimp only
  rw [henv]
  rfl

/-! ### Claim theorems -/

/-- Claim C2, counterexample: on a review text whose first numeral is the
plain five-digit run 12345, the extraction returns 123, not the entire run,
so the claim as stated is false. -/
theorem c2_counterexample :
    extractReviews "12345 reviews" = some 123 ∧
    extractReviews "12345 reviews" ≠ some 12345 := by
  constructor
  · decide
  · decide

/-- Claim C2 (amended): review-count extraction returns the first match of
the pattern (at most three leading digits followed by comma-separated
three-digit groups) with separators stripped and parsed as an integer — so
`extractReviews "1,234 reviews" = 1234` — and returns absent when the text
contains no numeral; for a text whose first numeral is a plain run of four
or more digits without separators, only the first three digits of the run
are returned (the `\d+` alternative of the pattern is unreachable). -/
theorem c2_review_count_extraction :
    extractReviews "1,234 reviews" = some 1234 ∧
    (∀ t : String, (∀ c ∈ t.toList, c.isDigit = false) → extractReviews t = none) ∧
    (∀ pre run post : List Char, (∀ c ∈ pre, c.isDigit = false) →
      (∀ c ∈ run, c.isDigit = true) → 4 ≤ run.length →
      extractReviews (String.mk (pre ++ run ++ post)) =
        some (digitsToNat (run.take 3))) := by
  refine ⟨by decide, ?_, ?_⟩
  · intro t ht
    unfold extractReviews
    have h0 : reviewsNumeral (t.toList ++ []) = reviewsNumeral [] :=
      reviewsNumeral_skip t.toList [] ht
    rw [List.append_nil] at h0
    rw [h0]
    rfl
  · intro pre run post hpre hrun hlen
    unfold extractReviews
    have htl : (String.mk (pre ++ run ++ post)).toList = pre ++ (run ++ post) := by
      show pre ++ run ++ post = pre ++ (run ++ post)
      rw [List.append_assoc]
    rw [htl, reviewsNumeral_skip pre (run ++ post) hpre,
      reviewsNumeral_long_run run post hrun hlen]
    simp only [Option.map_some']
    congr 1
    rw [List.filter_eq_self.mpr]
    intro a ha
    exact digit_ne_comma a (hrun a (List.mem_of_mem_take ha))

/-- Claim C2 witness: the amended theorem applied to a concrete text whose
first numeral is the five-digit run 12345 preceded by a non-digit. -/
theorem c2_review_count_extraction_witness :
    extractReviews (String.mk (['x'] ++ ['1', '2', '3', '4', '5'] ++ " reviews".toList)) =
      some (digitsToNat (['1', '2', '3', '4', '5'].take 3)) :=
  c2_review_count_extraction.2.2 ['x'] ['1', '2', '3', '4', '5'] " reviews".toList
    (by decide) (by decide) (by decide)

/-- Claim C3: for every page whose containers are all well formed (processing
does not raise, name and href present and truthy), extraction returns exactly
one record per container, each with name and url set; and removing a
non-well-formed container from a container list leaves the records of its
siblings unchanged (the bad container is skipped without affecting them). -/
theorem c3_extract_records :
    (∀ pg : Page, (∀ c ∈ pg.containers, wellFormed c = true) →
      (parse_product_listings pg).length = pg.containers.length ∧
      ∀ p ∈ parse_product_listings pg, p.name ≠ "" ∧ p.url ≠ "") ∧
    (∀ (pre post : List Container) (c : Container) (nh : Option String) (raw : String),
      wellFormed c = false →
      parse_product_listings ⟨pre ++ c :: post, nh, raw⟩ =
        parse_product_listings ⟨pre ++ post, nh, raw⟩) := by
  constructor
  · intro pg h
    constructor
    · exact filterMap_length_of_wellFormed pg.containers h
    · intro p hp
      obtain ⟨c, hc, hcp⟩ := List.mem_filterMap.mp hp
      obtain ⟨p', hp', hn, hu⟩ := parseContainer_of_wellFormed c (h c hc)
      rw [hcp] at hp'
      cases hp'
      exact ⟨hn, hu⟩
  · intro pre post c nh raw h
    simp only [parse_product_listings, List.filterMap_append]
    rw [List.filterMap_cons_none (parseContainer_of_not_wellFormed c h)]

/-- Claim C3 witness: the theorem applied to a one-container page and to a
container list with one skipped container. -/
theorem c3_extract_records_witness :
    ((parse_product_listings ⟨[goodContainer], none, "x"⟩).length =
        ([goodContainer] : List Container).length ∧
      ∀ p ∈ parse_product_listings ⟨[goodContainer], none, "x"⟩,
        p.name ≠ "" ∧ p.url ≠ "") ∧
    parse_product_listings ⟨[goodContainer] ++ badContainer :: [], none, "x"⟩ =
      parse_product_listings ⟨[goodContainer] ++ [], none, "x"⟩ :=
  ⟨c3_extract_records.1 ⟨[goodContainer], none, "x"⟩ (by decide),
    c3_extract_records.2 [goodContainer] [] badContainer none "x" (by decide)⟩

/-- Claim C4: the price cleaner strips currency symbols, separators and
whitespace, takes the lower bound of a `-` range, maps "free"
case-insensitively to 0, and yields an absent price when numeric parsing
fails: `clean_price "$1,234.50" = 1234.50`, `clean_price "100-200" = 100.0`,
`clean_price "Free" = 0.0`, `clean_price "N/A"` is absent (the embedding is
a total function, so no exception escapes). -/
theorem c4_clean_price_examples :
    clean_price "$1,234.50" = some (.num (1234.5 : ℚ)) ∧
    clean_price "100-200" = some (.num (100 : ℚ)) ∧
    clean_price "Free" = some (.num 0) ∧
    clean_price "N/A" = none := by
  refine ⟨?_, ?_, by decide, by decide⟩
  · have h : pyFloatScan (rangeLower (cleanedText "$1,234.50")) =
        .pos (.num ⟨['1', '2', '3', '4'], ['5', '0'], false, []⟩) := by decide
    have h1 : digitsToNat ['1', '2', '3', '4'] = 1234 := by decide
    have h2 : digitsToNat ['5', '0'] = 50 := by decide
    have h3 : digitsToNat ([] : List Char) = 0 := by decide
    simp only [clean_price]
    rw [if_neg (by decide)]
    simp only [pyFloat?, h, unsignedVal, decimalVal, h1, h2, h3,
      Option.some.injEq, PyFloat.num.injEq]
    norm_num
  · have h : pyFloatScan (rangeLower (cleanedText "100-200")) =
        .pos (.num ⟨['1', '0', '0'], [], false, []⟩) := by decide
    have h1 : digitsToNat ['1', '0', '0'] = 100 := by decide
    have h2 : digitsToNat ([] : List Char) = 0 := by decide
    simp only [clean_price]
    rw [if_neg (by decide)]
    simp only [pyFloat?, h, unsignedVal, decimalVal, h1, h2,
      Option.some.injEq, PyFloat.num.injEq]
    norm_num

/-- Claim C9, counterexample: the price text "nan" survives cleaning
unchanged and `float("nan")` yields NaN, which Python does not order at or
above zero, so this price is neither absent nor a number greater than or
equal to zero and the claim as stated is false. -/
theorem c9_counterexample :
    clean_price "nan" = some PyFloat.nan ∧ ¬ PyFloat.zeroLe PyFloat.nan := by
  constructor
  · decide
  · decide

/-- Claim C9 (amended): the price cleaner never produces a negative value:
for every input string it returns absent or a value that Python does not
order below zero (taking the part before the first `-` of a range leaves no
minus sign for numeric parsing) — the value can however be NaN, which is
neither below nor at-or-above zero; hence every record built by the
extractor has a price that is absent or not negative. -/
theorem c9_price_never_negative :
    (∀ (s : String) (v : PyFloat), clean_price s = some v → ¬ v.negative) ∧
    (∀ pg : Page, ∀ p ∈ parse_product_listings pg,
      ∀ v : PyFloat, p.price = some v → ¬ v.negative) := by
  constructor
  · exact clean_price_not_negative
  · intro pg p hp v hv
    obtain ⟨c, hc, hcp⟩ := List.mem_filterMap.mp hp
    rw [parseContainer_price c p hcp] at hv
    cases hpt : c.priceText with
    | none => rw [hpt] at hv; simp at hv
    | some s =>
      rw [hpt] at hv
      exact clean_price_not_negative s v hv

/-- Claim C9 witness: the amended theorem applied to the concrete price text
"Free", which cleans to the non-negative price 0. -/
theorem c9_price_never_negative_witness :
    ¬ PyFloat.negative (PyFloat.num 0) :=
  c9_price_never_negative.1 "Free" (.num 0) (by decide)

/-- Claim C10, counterexample: when creating the output directory fails, the
save operations propagate the exception to the caller (the `os.makedirs`
call sits before the `try` block), so the claim as stated is false. -/
theorem c10_counterexample :
    (save_to_csv ⟨true, false⟩ [sampleProduct]).raised = true ∧
    (save_to_json ⟨true, false⟩ [sampleProduct]).raised = true := by
  constructor
  · decide
  · decide

/-- Claim C10 (amended): once the output directory has been created
successfully, any error raised while building or writing the output file is
caught and both save operations return normally; a failure creating the
output directory itself propagates; and with an empty records list both
functions return at once without touching the filesystem. -/
theorem c10_save_errors_contained :
    (∀ (fs : FsEnv) (data : List Product), fs.mkdirFails = false →
      (save_to_csv fs data).raised = false ∧ (save_to_json fs data).raised = false) ∧
    (∀ fs : FsEnv, save_to_csv fs [] = ⟨false, false, false⟩ ∧
      save_to_json fs [] = ⟨false, false, false⟩) := by
  constructor
  · intro fs data h
    constructor
    · simp only [save_to_csv, h]
      split
      · rfl
      · rfl
    · simp only [save_to_json, h]
      split
      · rfl
      · rfl
  · intro fs
    exact ⟨rfl, rfl⟩

/-- Claim C10 witness: the amended theorem applied to a filesystem in which
directory creation succeeds but writing fails, and to the empty list. -/
theorem c10_save_errors_contained_witness :
    ((save_to_csv ⟨false, true⟩ [sampleProduct]).raised = false ∧
      (save_to_json ⟨false, true⟩ [sampleProduct]).raised = false) ∧
    (save_to_csv ⟨false, true⟩ [] = ⟨false, false, false⟩ ∧
      save_to_json ⟨false, true⟩ [] = ⟨false, false, false⟩) :=
  ⟨c10_save_errors_contained.1 ⟨false, true⟩ [sampleProduct] rfl,
    c10_save_errors_contained.2 ⟨false, true⟩⟩

/-- Claim C1, counterexample: with a budget of 2, a run whose second page has
no next-page link exits through the no-next-link `break`, not through the
budget guard, yet the budget-exhausted terminal reason is still recorded
because the check is keyed on the final page count alone. -/
theorem c1_counterexample :
    (scrape_products envTwoPages 2 "s").2 ≠ .budgetExhausted ∧
    budgetMessageRecorded 2 (scrape_products envTwoPages 2 "s").1 := by
  constructor
  · decide
  · decide

/-- Claim C1 (amended): the budget-exhausted terminal reason is recorded
whenever the loop exit was caused by reaching the page budget; it is keyed on
the final page count alone, so it is also recorded when another terminal
condition fired after the budget-th page was visited. -/
theorem c1_budget_exit_recorded (env : ℕ → GetOutcome) (budget : ℕ) (url : String)
    (h : (scrape_products env budget url).2 = .budgetExhausted) :
    budgetMessageRecorded budget (scrape_products env budget url).1 := by
  have hb := crawlLoop_budget_pageCount env budget ⟨some url, 0, []⟩ h
  simpa [budgetMessageRecorded, scrape_products] using hb

/-- Claim C1 witness: the amended theorem applied to a budget-1 run whose
page carries a next link, so the loop exit is caused by the budget guard. -/
theorem c1_budget_exit_recorded_witness :
    budgetMessageRecorded 1 (scrape_products envAllNext 1 "s").1 :=
  c1_budget_exit_recorded envAllNext 1 "s" (by decide)

/-- Claim C5: for every environment, start URL and page budget of at least 1,
the crawl (a total function of the embedding, hence terminating) visits at
most the budgeted number of pages, and with a page budget of 1 it visits
exactly one page regardless of any next link on that page. -/
theorem c5_page_budget_bound (env : ℕ → GetOutcome) (budget : ℕ) (url : String)
    (hb : 1 ≤ budget) :
    (scrape_products env budget url).1.pageCount ≤ budget ∧
    (budget = 1 → (scrape_products env budget url).1.pageCount = 1) := by
  constructor
  · have hle := crawlLoop_pageCount_le env budget ⟨some url, 0, []⟩
    simpa [scrape_products] using hle
  · intro h1
    subst h1
    have hone := crawlLoop_one_page env ⟨some url, 0, []⟩ url rfl
    simpa [scrape_products] using hone

/-- Claim C5 witness: the theorem applied to a budget-1 run over an
environment whose pages always carry a next link. -/
theorem c5_page_budget_bound_witness :
    (scrape_products envAllNext 1 "u").1.pageCount ≤ 1 ∧
    (1 = 1 → (scrape_products envAllNext 1 "u").1.pageCount = 1) :=
  c5_page_budget_bound envAllNext 1 "u" (by decide)

/-- Claim C6: a fatal WebDriver (transport) error aborts the crawl
immediately without retry, returning the state accumulated so far; in
particular when fetching page 1 raises it, the run yields no records, the
sinks are never invoked, and the driver session is still released. -/
theorem c6_fatal_transport_aborts :
    (∀ (env : ℕ → GetOutcome) (r : ℕ) (s : CrawlState) (u : String),
      s.currentUrl = some u → env (s.pageCount + 1) = .driverError →
      crawlLoop env (r + 1) s = ({ s with pageCount := s.pageCount + 1 }, .driverError)) ∧
    (∀ (env : ℕ → GetOutcome) (budget : ℕ) (url : String), 1 ≤ budget →
      env 1 = .driverError →
      mainRun env budget url = ⟨[], false, false, true⟩) := by
  constructor
  · exact crawlLoop_driverError
  · intro env budget url hb henv
    obtain ⟨r, rfl⟩ : ∃ r, budget = r + 1 := ⟨budget - 1, by omega⟩
    have h := crawlLoop_driverError env r ⟨some url, 0, []⟩ url rfl henv
    simp only [mainRun, scrape_products, h]
    rfl

/-- Claim C6 witness: the theorem applied to the environment in which every
fetch raises a fatal WebDriver error, with budget 1. -/
theorem c6_fatal_transport_aborts_witness :
    crawlLoop envDriverErr 1 ⟨some "u", 0, []⟩ =
      (⟨some "u", 1, []⟩, .driverError) ∧
    mainRun envDriverErr 1 "u" = ⟨[], false, false, true⟩ :=
  ⟨c6_fatal_transport_aborts.1 envDriverErr 0 ⟨some "u", 0, []⟩ "u" rfl rfl,
    c6_fatal_transport_aborts.2 envDriverErr 1 "u" (by decide) rfl⟩

/-- Claim C7: after an element-wait timeout the controller is not aborted:
when the returned page carries the no-results marker the iteration breaks
with terminal reason no-results and an unchanged state (no extraction is
attempted); when the marker is absent the iteration is identical to one whose
wait succeeded, so extraction proceeds on the returned HTML. -/
theorem c7_wait_timeout_policy :
    (∀ (p : Page) (s : CrawlState), noResultsMarker p = true →
      pageStep (.ok true p) s = .broke .noResults s) ∧
    (∀ (p : Page) (s : CrawlState), noResultsMarker p = false →
      pageStep (.ok true p) s = pageStep (.ok false p) s) := by
  constructor
  · intro p s h
    simp [pageStep, h]
  · intro p s h
    simp [pageStep, h]

/-- Claim C7 witness: the theorem applied to a page carrying the no-results
marker and to one without it. -/
theorem c7_wait_timeout_policy_witness :
    pageStep (.ok true pageNoResults) ⟨some "u", 0, []⟩ =
      .broke .noResults ⟨some "u", 0, []⟩ ∧
    pageStep (.ok true pageWithNext) ⟨some "u", 0, []⟩ =
      pageStep (.ok false pageWithNext) ⟨some "u", 0, []⟩ :=
  ⟨c7_wait_timeout_policy.1 pageNoResults ⟨some "u", 0, []⟩ (by decide),
    c7_wait_timeout_policy.2 pageWithNext ⟨some "u", 0, []⟩ (by decide)⟩

/-- Claim C8: whenever an iteration continues the loop (every recovery
branch: empty page source, page-load timeout, unexpected per-page error, as
well as the normal advance), the URL of the next fetch is exactly the output
of the pagination resolver on the source available to that branch — the
current URL is never carried unchanged into another fetch; in every other
case the iteration breaks and the loop terminates. -/
theorem c8_next_url_from_resolver (ev : GetOutcome) (s s' : CrawlState)
    (h : pageStep ev s = .cont s') :
    s'.currentUrl = (availableSource ev).bind find_next_page_url := by
  cases ev with
  | ok w src =>
    simp only [pageStep] at h
    split at h
    · cases h
    · split at h
      · cases h
        simp [availableSource]
      · split at h
        · rename_i u heq
          cases h
          simp [availableSource, heq]
        · cases h
  | loadTimeout src =>
    simp only [pageStep] at h
    cases h
    simp [availableSource]
  | driverError =>
    simp only [pageStep] at h
    cases h
  | unexpectedErr src =>
    simp only [pageStep] at h
    cases h
    simp [availableSource]

/-- Claim C8 witness: the theorem applied to a page-load timeout whose
next-link recovery itself fails, so the next URL is the resolver output on no
available source, i.e. absent. -/
theorem c8_next_url_from_resolver_witness :
    (⟨none, 0, []⟩ : CrawlState).currentUrl =
      (availableSource (.loadTimeout none)).bind find_next_page_url :=
  c8_next_url_from_resolver (.loadTimeout none) ⟨some "u", 0, []⟩ ⟨none, 0, []⟩
    (by decide)

end EcommerceScraper
